import Mathlib

/-!
Verification development for the rewardo-search-api repository (src/main.rs).

The source is an actix-web HTTP service over a Postgres store.  We give a
shallow embedding of its query/mapping/pagination core:

* the persisted schema is a `Store`: a base table of flight rows plus four
  satellite award tables, one per cabin, modelled as functional lookups
  keyed by flight identifier (at most one award row per flight per cabin,
  as in the intended schema where each satellite row references a flight);
* the two SQL query shapes are modelled denotationally: the WHERE clause as
  a Boolean filter over base rows, ORDER BY as a sort by the corresponding
  key, the LEFT JOINs as `joinRow`, and LIMIT/OFFSET as `List.take`/`drop`
  applied after binding the usize parameters as i64 (Postgres rejects
  negative LIMIT/OFFSET with an error, which we model);
* the row-mapping closure (identical in both repository methods in the
  source) is `mapRow`; the current wall-clock time read by `Utc::now()` is
  passed in explicitly as the `now` argument;
* the `f64` arithmetic in `(total_count as f64 / page_size as f64).ceil()
  as usize` is modelled as exact rational arithmetic (`ℚ`), which agrees
  with the double-precision computation for all counts below 2^53; the
  division-by-zero branch follows IEEE-754 and Rust float-to-int casts:
  positive/0.0 = +inf casts (saturating) to usize::MAX, 0.0/0.0 = NaN casts
  to 0, negative/0.0 = -inf casts to 0;
* fallible database interaction is explicit: each repository method is the
  composition of a pure core (`rangeSearchOnResults`,
  `cheapestSearchOnResults`) over the outcomes of its two sub-queries,
  mirroring how the source consumes the two `sqlx` results.

Machine integers are modelled as `Nat`/`Int` with explicit reduction
modulo 2^64 where usize/i64 conversions and wrapping occur.
-/

namespace Rewardo

/-! ## Entities returned by the API (structs in src/main.rs)

The source declares four field-for-field identical award structs
(`AwardEconomy`, `AwardBusiness`, `AwardPremiumEconomy`, `AwardFirst`); we
use a single structure `AwardOffer` for all four optional slots. -/

structure AwardOffer where
  id : Option String
  cabin_points_value : Option Int
  is_saver_award : Option Bool
  cabin_class_seat_count : Option Int
  cabin_class_seat_count_string : Option String
deriving DecidableEq

structure RewardFlightLatest where
  id : Option String
  origin : String
  destination : String
  departure : String
  carrier_code : String
  scraped_at : Int
  award_economy : Option AwardOffer
  award_business : Option AwardOffer
  award_premium_economy : Option AwardOffer
  award_first : Option AwardOffer
deriving DecidableEq

/-- Pagination response wrapper (`Page<T>` in the source). -/
structure Page (α : Type) where
  content : List α
  page_number : Nat
  page_size : Nat
  total_elements : Int
  total_pages : Nat
deriving DecidableEq

/-- Simplified rendering of `sqlx::Error`: a typed data-access error. -/
structure DbError where
  msg : String
deriving DecidableEq

/-! ## The persisted schema -/

/-- One row of a satellite award table.  The row identifier is the primary
key (non-null); attribute cells may be null, modelled by `Option`. -/
structure AwardSatRow where
  id : Int
  cabin_points_value : Option Int
  is_saver_award : Option Bool
  cabin_class_seat_count : Option Int
  cabin_class_seat_count_string : Option String
deriving DecidableEq

/-- One row of the base table `reward_flights_latest`.  `departure` is
`none` when the cell is SQL-null or not readable as a calendar date, and
`some d` (d = days since the Unix epoch) otherwise; `scraped_at` is `none`
when the capture-timestamp cell is unreadable. -/
structure FlightRow where
  id : Int
  origin : String
  destination : String
  departure : Option Nat
  carrier_code : String
  scraped_at : Option Int
deriving DecidableEq

/-- The store: base table plus the four per-cabin satellite tables, each a
functional lookup by flight identifier. -/
structure Store where
  flights : List FlightRow
  award_economy : Int → Option AwardSatRow
  award_business : Int → Option AwardSatRow
  award_premium_economy : Int → Option AwardSatRow
  award_first : Int → Option AwardSatRow

/-- One denormalized row of the left-joined result set, with exactly the
columns selected by both page queries in the source.  A cabin's `*_id`
column is `none` exactly when that cabin's LEFT JOIN did not match. -/
structure JoinedRow where
  id : Int
  origin : String
  destination : String
  departure : Option Nat
  carrier_code : String
  scraped_at : Option Int
  ae_id : Option Int
  ae_cabin_points_value : Option Int
  ae_is_saver_award : Option Bool
  ae_cabin_class_seat_count : Option Int
  ae_cabin_class_seat_count_string : Option String
  ab_id : Option Int
  ab_cabin_points_value : Option Int
  ab_is_saver_award : Option Bool
  ab_cabin_class_seat_count : Option Int
  ab_cabin_class_seat_count_string : Option String
  ape_id : Option Int
  ape_cabin_points_value : Option Int
  ape_is_saver_award : Option Bool
  ape_cabin_class_seat_count : Option Int
  ape_cabin_class_seat_count_string : Option String
  af_id : Option Int
  af_cabin_points_value : Option Int
  af_is_saver_award : Option Bool
  af_cabin_class_seat_count : Option Int
  af_cabin_class_seat_count_string : Option String
deriving DecidableEq

/-- The LEFT JOIN of one base row with the four satellite tables
(`LEFT JOIN award_economy ae ON ae.flight_id = rfl.id`, etc.). -/
def joinRow (st : Store) (f : FlightRow) : JoinedRow :=
  { id := f.id
    origin := f.origin
    destination := f.destination
    departure := f.departure
    carrier_code := f.carrier_code
    scraped_at := f.scraped_at
    ae_id := (st.award_economy f.id).map (fun a => a.id)
    ae_cabin_points_value := (st.award_economy f.id).bind (fun a => a.cabin_points_value)
    ae_is_saver_award := (st.award_economy f.id).bind (fun a => a.is_saver_award)
    ae_cabin_class_seat_count := (st.award_economy f.id).bind (fun a => a.cabin_class_seat_count)
    ae_cabin_class_seat_count_string := (st.award_economy f.id).bind (fun a => a.cabin_class_seat_count_string)
    ab_id := (st.award_business f.id).map (fun a => a.id)
    ab_cabin_points_value := (st.award_business f.id).bind (fun a => a.cabin_points_value)
    ab_is_saver_award := (st.award_business f.id).bind (fun a => a.is_saver_award)
    ab_cabin_class_seat_count := (st.award_business f.id).bind (fun a => a.cabin_class_seat_count)
    ab_cabin_class_seat_count_string := (st.award_business f.id).bind (fun a => a.cabin_class_seat_count_string)
    ape_id := (st.award_premium_economy f.id).map (fun a => a.id)
    ape_cabin_points_value := (st.award_premium_economy f.id).bind (fun a => a.cabin_points_value)
    ape_is_saver_award := (st.award_premium_economy f.id).bind (fun a => a.is_saver_award)
    ape_cabin_class_seat_count := (st.award_premium_economy f.id).bind (fun a => a.cabin_class_seat_count)
    ape_cabin_class_seat_count_string := (st.award_premium_economy f.id).bind (fun a => a.cabin_class_seat_count_string)
    af_id := (st.award_first f.id).map (fun a => a.id)
    af_cabin_points_value := (st.award_first f.id).bind (fun a => a.cabin_points_value)
    af_is_saver_award := (st.award_first f.id).bind (fun a => a.is_saver_award)
    af_cabin_class_seat_count := (st.award_first f.id).bind (fun a => a.cabin_class_seat_count)
    af_cabin_class_seat_count_string := (st.award_first f.id).bind (fun a => a.cabin_class_seat_count_string) }

/-! ## Date rendering (`date.format("%Y-%m-%d")`) -/

def pad2 (n : Nat) : String :=
  if n < 10 then "0" ++ toString n else toString n

def pad4 (n : Int) : String :=
  if n < 0 then "-" ++ toString (-n)
  else if n < 10 then "000" ++ toString n
  else if n < 100 then "00" ++ toString n
  else if n < 1000 then "0" ++ toString n
  else toString n

/-- Civil calendar date (year, month, day) from a count of days since the
Unix epoch (standard era-based conversion algorithm). -/
def civilFromDays (z0 : Int) : Int × Nat × Nat :=
  let z := z0 + 719468
  let era : Int := (if 0 ≤ z then z else z - 146096) / 146097
  let doe : Nat := (z - era * 146097).toNat
  let yoe : Nat := (doe - doe / 1460 + doe / 36524 - doe / 146096) / 365
  let doy : Nat := doe - (365 * yoe + yoe / 4 - yoe / 100)
  let mp : Nat := (5 * doy + 2) / 153
  let d : Nat := doy - (153 * mp + 2) / 5 + 1
  let m : Nat := if mp < 10 then mp + 3 else mp - 9
  let y : Int := (yoe : Int) + era * 400 + (if m ≤ 2 then 1 else 0)
  (y, m, d)

/-- Renders an epoch-day count as `YYYY-MM-DD`. -/
def formatDate (days : Nat) : String :=
  let ymd := civilFromDays (days : Int)
  pad4 ymd.1 ++ "-" ++ pad2 ymd.2.1 ++ "-" ++ pad2 ymd.2.2

/-! ## The row-mapping closure

Identical in both repository methods of the source.  For each cabin the
mapper reads the join-produced `*_id` column as a non-optional value
(`row.try_get::<i32, _>("ae_id")`): on success it builds that cabin's award
struct with each attribute read independently and degraded to `None` on
failure (`.ok()`); on failure (the column is null) the slot is `None`.
An unreadable departure cell is silently rendered as the empty string and
an unreadable capture timestamp is silently defaulted to `Utc::now()`
(passed here explicitly as `now`). -/
def mapRow (now : Int) (row : JoinedRow) : RewardFlightLatest :=
  let award_economy : Option AwardOffer :=
    match row.ae_id with
    | some i =>
        some { id := some (toString i)
               cabin_points_value := row.ae_cabin_points_value
               is_saver_award := row.ae_is_saver_award
               cabin_class_seat_count := row.ae_cabin_class_seat_count
               cabin_class_seat_count_string := row.ae_cabin_class_seat_count_string }
    | none => none
  let award_business : Option AwardOffer :=
    match row.ab_id with
    | some i =>
        some { id := some (toString i)
               cabin_points_value := row.ab_cabin_points_value
               is_saver_award := row.ab_is_saver_award
               cabin_class_seat_count := row.ab_cabin_class_seat_count
               cabin_class_seat_count_string := row.ab_cabin_class_seat_count_string }
    | none => none
  let award_premium_economy : Option AwardOffer :=
    match row.ape_id with
    | some i =>
        some { id := some (toString i)
               cabin_points_value := row.ape_cabin_points_value
               is_saver_award := row.ape_is_saver_award
               cabin_class_seat_count := row.ape_cabin_class_seat_count
               cabin_class_seat_count_string := row.ape_cabin_class_seat_count_string }
    | none => none
  let award_first : Option AwardOffer :=
    match row.af_id with
    | some i =>
        some { id := some (toString i)
               cabin_points_value := row.af_cabin_points_value
               is_saver_award := row.af_is_saver_award
               cabin_class_seat_count := row.af_cabin_class_seat_count
               cabin_class_seat_count_string := row.af_cabin_class_seat_count_string }
    | none => none
  let formatted_departure : String :=
    match row.departure with
    | some d => formatDate d
    | none => ""
  { id := some (toString row.id)
    origin := row.origin
    destination := row.destination
    departure := formatted_departure
    carrier_code := row.carrier_code
    scraped_at := row.scraped_at.getD now
    award_economy := award_economy
    award_business := award_business
    award_premium_economy := award_premium_economy
    award_first := award_first }

/-! ## Machine-integer conversions -/

def usizeMax : Nat := 2 ^ 64 - 1

/-- `n as i64` for a usize-valued `n`: reduce modulo 2^64 (usize width),
then reinterpret as a two's-complement signed 64-bit value. -/
def usizeToI64 (n : Nat) : Int :=
  if n % 2 ^ 64 < 2 ^ 63 then ((n % 2 ^ 64 : Nat) : Int)
  else ((n % 2 ^ 64 : Nat) : Int) - 2 ^ 64

/-- `x as usize` for an i32-valued `x`: sign-extend and reinterpret as an
unsigned 64-bit value, i.e. reduce modulo 2^64. -/
def i32ToUsize (x : Int) : Nat :=
  (x % (2 : Int) ^ 64).toNat

/-- Models `(total_count as f64 / page_size as f64).ceil() as usize`.
Floating point is modelled as exact rational arithmetic (exact for counts
below 2^53).  With `page_size = 0` the IEEE division gives +inf for a
positive count (saturating cast: usize::MAX), NaN for a zero count (cast:
0) and -inf for a negative count (cast: 0); `Int.toNat` likewise models
the saturating cast of a negative finite result to 0. -/
def totalPagesOfCount (total_count : Int) (page_size : Nat) : Nat :=
  if page_size = 0 then
    if 0 < total_count then usizeMax else 0
  else
    (Int.ceil ((total_count : ℚ) / (page_size : ℚ))).toNat

/-! ## Range search
(`find_by_origin_and_destination_and_carrier_code_and_departure_between`) -/

/-- WHERE clause of both range-search queries: `rfl.origin = $1 AND
rfl.destination = $2 AND rfl.carrier_code = $3 AND rfl.departure::date
BETWEEN $4 AND $5` (a null departure fails BETWEEN). -/
def rangeMatches (origin destination carrier_code : String) (from_date to_date : Nat)
    (f : FlightRow) : Bool :=
  f.origin == origin && f.destination == destination && f.carrier_code == carrier_code &&
    (match f.departure with
     | some d => from_date ≤ d && d ≤ to_date
     | none => false)

/-- `ORDER BY rfl.departure ASC`.  All rows reaching the sort satisfy the
WHERE clause and hence have a non-null departure, so defaulting the key to
0 is immaterial (Postgres would put nulls last). -/
def depLe (a b : FlightRow) : Prop :=
  a.departure.getD 0 ≤ b.departure.getD 0

instance : DecidableRel depLe := fun a b => by unfold depLe; exact inferInstance

instance : IsTotal FlightRow depLe := ⟨fun a b => Nat.le_total _ _⟩

instance : IsTrans FlightRow depLe := ⟨fun _ _ _ h1 h2 => Nat.le_trans h1 h2⟩

/-- The count sub-query of the range search (`SELECT COUNT(*) ... WHERE`
with the same predicates, no joins). -/
def rangeCountQuery (st : Store) (origin destination carrier_code : String)
    (from_date to_date : Nat) : Int :=
  ((st.flights.filter (rangeMatches origin destination carrier_code from_date to_date)).length : Int)

/-- The joined, filtered, ordered result set of the range page query,
before LIMIT/OFFSET. -/
def rangeOrdered (st : Store) (origin destination carrier_code : String)
    (from_date to_date : Nat) : List JoinedRow :=
  ((st.flights.filter (rangeMatches origin destination carrier_code from_date to_date)).insertionSort
      depLe).map (joinRow st)

/-- The range page query: binds `page_size as i64` for LIMIT and
`(page_number * page_size) as i64` for OFFSET; Postgres rejects a negative
LIMIT or OFFSET with a query-execution error. -/
def rangePageRows (st : Store) (origin destination carrier_code : String)
    (from_date to_date : Nat) (page_number page_size : Nat) :
    Except DbError (List JoinedRow) :=
  let offset := usizeToI64 (page_number * page_size)
  let limit := usizeToI64 page_size
  if offset < 0 then Except.error { msg := "OFFSET must not be negative" }
  else if limit < 0 then Except.error { msg := "LIMIT must not be negative" }
  else
    Except.ok
      (((rangeOrdered st origin destination carrier_code from_date to_date).drop
          offset.toNat).take limit.toNat)

/-- Body of the range-search repository method, as a function of the
outcomes of its two sub-queries.  Mirrors the source: the count result is
consumed with `.map(|row| row.0).unwrap_or(0)` (a failure silently becomes
a zero total), the page-query result with `?` (a failure propagates), and
a successful page is assembled from the mapped rows and the pagination
metadata. -/
def rangeSearchOnResults (countResult : Except DbError Int)
    (rowsResult : Except DbError (List JoinedRow)) (now : Int)
    (page_number page_size : Nat) : Except DbError (Page RewardFlightLatest) :=
  let total_count : Int :=
    match countResult with
    | Except.ok n => n
    | Except.error _ => 0
  match rowsResult with
  | Except.error e => Except.error e
  | Except.ok rows =>
      Except.ok
        { content := rows.map (mapRow now)
          page_number := page_number
          page_size := page_size
          total_elements := total_count
          total_pages := totalPagesOfCount total_count page_size }

/-- The range-search repository method run against a healthy store (both
sub-queries reach the store and return their denotational results). -/
def find_by_origin_and_destination_and_carrier_code_and_departure_between
    (st : Store) (now : Int) (origin destination carrier_code : String)
    (from_date to_date : Nat) (page_number page_size : Nat) :
    Except DbError (Page RewardFlightLatest) :=
  rangeSearchOnResults
    (Except.ok (rangeCountQuery st origin destination carrier_code from_date to_date))
    (rangePageRows st origin destination carrier_code from_date to_date page_number page_size)
    now page_number page_size

/-! ## Cheapest search
(`find_all_ordered_by_lowest_cabin_points_and_origin_and_destination`) -/

/-- Eligibility of one satellite lookup in the WHERE clause:
`<t>.cabin_points_value IS NOT NULL AND <t>.cabin_class_seat_count > 0`
(an unmatched join leaves both cells null; a null seat count fails the
comparison). -/
def awardBookable (x : Option AwardSatRow) : Bool :=
  match x with
  | none => false
  | some a =>
      a.cabin_points_value.isSome &&
        (match a.cabin_class_seat_count with
         | some n => decide (0 < n)
         | none => false)

/-- WHERE clause of both cheapest-search queries: origin and destination
equality plus the three-way cabin disjunction of the source SQL. -/
def cheapestMatches (st : Store) (origin destination cabin_type : String)
    (f : FlightRow) : Bool :=
  f.origin == origin && f.destination == destination &&
    ((cabin_type == "ECONOMY" && awardBookable (st.award_economy f.id)) ||
     (cabin_type == "PREMIUM_ECONOMY" && awardBookable (st.award_premium_economy f.id)) ||
     (cabin_type == "BUSINESS" && awardBookable (st.award_business f.id)))

/-- The satellite table selected by the `CASE WHEN $3 = ... END`
expression. -/
def cabinLookup (st : Store) (cabin_type : String) (fid : Int) : Option AwardSatRow :=
  if cabin_type = "ECONOMY" then st.award_economy fid
  else if cabin_type = "PREMIUM_ECONOMY" then st.award_premium_economy fid
  else if cabin_type = "BUSINESS" then st.award_business fid
  else none

/-- The selected cabin's points value for a base row (the `CASE ... END`
ordering expression; `none` = SQL NULL). -/
def cheapKey (st : Store) (cabin_type : String) (f : FlightRow) : Option Int :=
  (cabinLookup st cabin_type f.id).bind (fun a => a.cabin_points_value)

def cheapKeyD (st : Store) (cabin_type : String) (f : FlightRow) : Int :=
  (cheapKey st cabin_type f).getD 0

def depKeyD (f : FlightRow) : Nat :=
  f.departure.getD 0

/-- `ORDER BY CASE ... END ASC, rfl.departure ASC`: lexicographic order on
(selected cabin's points value, departure).  Every row reaching the sort
satisfies the WHERE clause, so its points key is non-null and defaulting
the key to 0 is immaterial. -/
def cheapLe (st : Store) (cabin_type : String) (a b : FlightRow) : Prop :=
  cheapKeyD st cabin_type a < cheapKeyD st cabin_type b ∨
    (cheapKeyD st cabin_type a = cheapKeyD st cabin_type b ∧ depKeyD a ≤ depKeyD b)

instance (st : Store) (cabin_type : String) : DecidableRel (cheapLe st cabin_type) :=
  fun a b => by unfold cheapLe; exact inferInstance

instance (st : Store) (cabin_type : String) : IsTotal FlightRow (cheapLe st cabin_type) :=
  ⟨fun a b => by unfold cheapLe; omega⟩

instance (st : Store) (cabin_type : String) : IsTrans FlightRow (cheapLe st cabin_type) :=
  ⟨fun a b c h1 h2 => by unfold cheapLe at h1 h2 ⊢; omega⟩

/-- The count sub-query of the cheapest search (same joins and WHERE
clause as its page query, minus the `award_first` join it does not
reference). -/
def cheapestCountQuery (st : Store) (origin destination cabin_type : String) : Int :=
  ((st.flights.filter (cheapestMatches st origin destination cabin_type)).length : Int)

/-- The joined, filtered, ordered result set of the cheapest page query,
before LIMIT/OFFSET. -/
def cheapestOrdered (st : Store) (origin destination cabin_type : String) :
    List JoinedRow :=
  ((st.flights.filter (cheapestMatches st origin destination cabin_type)).insertionSort
      (cheapLe st cabin_type)).map (joinRow st)

/-- The cheapest page query with its LIMIT/OFFSET binds, as in
`rangePageRows`. -/
def cheapestPageRows (st : Store) (origin destination cabin_type : String)
    (page_number page_size : Nat) : Except DbError (List JoinedRow) :=
  let offset := usizeToI64 (page_number * page_size)
  let limit := usizeToI64 page_size
  if offset < 0 then Except.error { msg := "OFFSET must not be negative" }
  else if limit < 0 then Except.error { msg := "LIMIT must not be negative" }
  else
    Except.ok
      (((cheapestOrdered st origin destination cabin_type).drop offset.toNat).take
        limit.toNat)

/-- Body of the cheapest-search repository method as a function of its two
sub-query outcomes; the source duplicates the structure of the range
method verbatim (count consumed with `.unwrap_or(0)`, page query with `?`,
same mapping closure, same pagination arithmetic). -/
def cheapestSearchOnResults (countResult : Except DbError Int)
    (rowsResult : Except DbError (List JoinedRow)) (now : Int)
    (page_number page_size : Nat) : Except DbError (Page RewardFlightLatest) :=
  let total_count : Int :=
    match countResult with
    | Except.ok n => n
    | Except.error _ => 0
  match rowsResult with
  | Except.error e => Except.error e
  | Except.ok rows =>
      Except.ok
        { content := rows.map (mapRow now)
          page_number := page_number
          page_size := page_size
          total_elements := total_count
          total_pages := totalPagesOfCount total_count page_size }

/-- The cheapest-search repository method run against a healthy store. -/
def find_all_ordered_by_lowest_cabin_points_and_origin_and_destination
    (st : Store) (now : Int) (origin destination cabin_type : String)
    (page_number page_size : Nat) : Except DbError (Page RewardFlightLatest) :=
  cheapestSearchOnResults
    (Except.ok (cheapestCountQuery st origin destination cabin_type))
    (cheapestPageRows st origin destination cabin_type page_number page_size)
    now page_number page_size

/-! ## HTTP handlers

Query-parameter decoding and date parsing are performed by external
collaborators (serde, chrono); the handlers are modelled from the point
where those outcomes are in hand: `from_date`/`to_date` are the results of
`NaiveDate::parse_from_str` and `PageParams` carries the decoded optional
i32 query parameters. -/

structure PageParams where
  page_number : Option Int
  page_size : Option Int
deriving DecidableEq

inductive HttpResp (α : Type) where
  | badRequest : String → HttpResp α
  | internalServerError : String → HttpResp α
  | ok : α → HttpResp α
deriving DecidableEq

/-- Handler of `GET .../origin/{origin}/destination/{destination}/from/{from}/to/{to}`:
defaults `page-number` to 0 and `page-size` to 10, rejects malformed
dates, casts both i32 parameters with `as usize`, fixes the carrier to
`"VS"`, and maps a repository error to a 500 response. -/
def latest_reward_flights (st : Store) (now : Int) (origin destination : String)
    (from_date to_date : Option Nat) (query : PageParams) :
    HttpResp (Page RewardFlightLatest) :=
  let page_number := query.page_number.getD 0
  let page_size := query.page_size.getD 10
  match from_date with
  | none => HttpResp.badRequest "Invalid from date format. Expected YYYY-MM-DD"
  | some fromD =>
      match to_date with
      | none => HttpResp.badRequest "Invalid to date format. Expected YYYY-MM-DD"
      | some toD =>
          match find_by_origin_and_destination_and_carrier_code_and_departure_between
              st now origin destination "VS" fromD toD
              (i32ToUsize page_number) (i32ToUsize page_size) with
          | Except.ok page => HttpResp.ok page
          | Except.error _ => HttpResp.internalServerError "Failed to fetch reward flights"

/-- Handler of `GET .../origin/{origin}/destination/{destination}/cabin/{cabin_type}/cheapest`:
defaults `page-number` to 0 and `page-size` to 50, rejects an unrecognized
cabin type, casts both i32 parameters with `as usize`, and maps a
repository error to a 500 response. -/
def cheapest_reward_flights (st : Store) (now : Int) (origin destination : String)
    (cabin_type_str : String) (query : PageParams) :
    HttpResp (Page RewardFlightLatest) :=
  let page_number := query.page_number.getD 0
  let page_size := query.page_size.getD 50
  if cabin_type_str = "ECONOMY" ∨ cabin_type_str = "PREMIUM_ECONOMY" ∨
      cabin_type_str = "BUSINESS" then
    match find_all_ordered_by_lowest_cabin_points_and_origin_and_destination
        st now origin destination cabin_type_str
        (i32ToUsize page_number) (i32ToUsize page_size) with
    | Except.ok page => HttpResp.ok page
    | Except.error _ =>
        HttpResp.internalServerError "Failed to fetch cheapest reward flights"
  else
    HttpResp.badRequest "Invalid cabin type. Expected ECONOMY, PREMIUM_ECONOMY, or BUSINESS"

/-! ## Derived views of the page queries -/

/-- The rows actually returned by the range page query when its LIMIT and
OFFSET binds are in range: the ordered result set restricted to the
requested window. -/
def rangeSelected (st : Store) (origin destination carrier_code : String)
    (from_date to_date : Nat) (page_number page_size : Nat) : List JoinedRow :=
  ((rangeOrdered st origin destination carrier_code from_date to_date).drop
      (page_number * page_size)).take page_size

/-- The rows actually returned by the cheapest page query when its LIMIT
and OFFSET binds are in range. -/
def cheapestSelected (st : Store) (origin destination cabin_type : String)
    (page_number page_size : Nat) : List JoinedRow :=
  ((cheapestOrdered st origin destination cabin_type).drop
      (page_number * page_size)).take page_size

/-! ## Per-cabin column selectors, used to state the claims -/

/-- The requested cabin's points column of a joined row. -/
def jCabinPoints (cabin_type : String) (r : JoinedRow) : Option Int :=
  if cabin_type = "ECONOMY" then r.ae_cabin_points_value
  else if cabin_type = "PREMIUM_ECONOMY" then r.ape_cabin_points_value
  else if cabin_type = "BUSINESS" then r.ab_cabin_points_value
  else none

/-- The requested cabin's seat-count column of a joined row. -/
def jCabinSeat (cabin_type : String) (r : JoinedRow) : Option Int :=
  if cabin_type = "ECONOMY" then r.ae_cabin_class_seat_count
  else if cabin_type = "PREMIUM_ECONOMY" then r.ape_cabin_class_seat_count
  else if cabin_type = "BUSINESS" then r.ab_cabin_class_seat_count
  else none

/-- The requested cabin's join-produced identifier column of a joined row. -/
def jCabinId (cabin_type : String) (r : JoinedRow) : Option Int :=
  if cabin_type = "ECONOMY" then r.ae_id
  else if cabin_type = "PREMIUM_ECONOMY" then r.ape_id
  else if cabin_type = "BUSINESS" then r.ab_id
  else none

/-- The requested cabin's award slot of a mapped entity. -/
def selAward (cabin_type : String) (fl : RewardFlightLatest) : Option AwardOffer :=
  if cabin_type = "ECONOMY" then fl.award_economy
  else if cabin_type = "PREMIUM_ECONOMY" then fl.award_premium_economy
  else if cabin_type = "BUSINESS" then fl.award_business
  else none

/-- The requested cabin's points value of a mapped entity. -/
def selPoints (cabin_type : String) (fl : RewardFlightLatest) : Option Int :=
  (selAward cabin_type fl).bind (fun a => a.cabin_points_value)

/-- The requested cabin's seat count of a mapped entity. -/
def selSeat (cabin_type : String) (fl : RewardFlightLatest) : Option Int :=
  (selAward cabin_type fl).bind (fun a => a.cabin_class_seat_count)

/-! ## Observation helpers and concrete fixtures -/

/-- Projects the total-page count out of a handler response, when the
response is a 200. -/
def respTotalPages (r : HttpResp (Page RewardFlightLatest)) : Option Nat :=
  match r with
  | HttpResp.ok pg => some pg.total_pages
  | _ => none

/-- Whether a handler response is a 400. -/
def respIsBadRequest (r : HttpResp (Page RewardFlightLatest)) : Bool :=
  match r with
  | HttpResp.badRequest _ => true
  | _ => false

/-- Projects the content list out of a repository result, when the result
is a success. -/
def exceptContent (x : Except DbError (Page RewardFlightLatest)) :
    Option (List RewardFlightLatest) :=
  match x with
  | Except.ok pg => some pg.content
  | Except.error _ => none

/-- A fixture award row. -/
def economyRow1 : AwardSatRow :=
  { id := 71, cabin_points_value := some 10000, is_saver_award := some true,
    cabin_class_seat_count := some 5, cabin_class_seat_count_string := some "5" }

/-- A fixture award row. -/
def businessRow1 : AwardSatRow :=
  { id := 72, cabin_points_value := some 30000, is_saver_award := some false,
    cabin_class_seat_count := some 2, cabin_class_seat_count_string := some "2" }

/-- A fixture base-table row with every column readable. -/
def flight1 : FlightRow :=
  { id := 1, origin := "LHR", destination := "JFK", departure := some 19900,
    carrier_code := "VS", scraped_at := some 1000 }

/-- A fixture store holding `flight1` with economy and business awards. -/
def store1 : Store :=
  { flights := [flight1]
    award_economy := fun i => if i = 1 then some economyRow1 else none
    award_business := fun i => if i = 1 then some businessRow1 else none
    award_premium_economy := fun _ => none
    award_first := fun _ => none }

/-- A fixture base-table row whose capture-timestamp cell is unreadable. -/
def flight9 : FlightRow :=
  { id := 1, origin := "LHR", destination := "JFK", departure := some 19900,
    carrier_code := "VS", scraped_at := none }

/-- A fixture store holding `flight9` (unreadable capture timestamp). -/
def store9 : Store :=
  { flights := [flight9]
    award_economy := fun _ => none
    award_business := fun _ => none
    award_premium_economy := fun _ => none
    award_first := fun _ => none }

/-- A joined row whose departure and capture-timestamp cells are both
unreadable and with no award join matches. -/
def unreadableRow : JoinedRow :=
  { id := 3, origin := "LHR", destination := "JFK", departure := none,
    carrier_code := "VS", scraped_at := none
    ae_id := none, ae_cabin_points_value := none, ae_is_saver_award := none,
    ae_cabin_class_seat_count := none, ae_cabin_class_seat_count_string := none
    ab_id := none, ab_cabin_points_value := none, ab_is_saver_award := none,
    ab_cabin_class_seat_count := none, ab_cabin_class_seat_count_string := none
    ape_id := none, ape_cabin_points_value := none, ape_is_saver_award := none,
    ape_cabin_class_seat_count := none, ape_cabin_class_seat_count_string := none
    af_id := none, af_cabin_points_value := none, af_is_saver_award := none,
    af_cabin_class_seat_count := none, af_cabin_class_seat_count_string := none }

/-! ## Supporting lemmas -/

theorem ceil_natCast_div (t s : Nat) (hs : 0 < s) :
    Int.ceil ((t : ℚ) / (s : ℚ)) = (((t + s - 1) / s : Nat) : Int) := by
  have hsQ : (0 : ℚ) < (s : ℚ) := by exact_mod_cast hs
  have hdm := Nat.div_add_mod (t + s - 1) s
  have hmod : (t + s - 1) % s < s := Nat.mod_lt _ hs
  have h1 : t ≤ s * ((t + s - 1) / s) := by omega
  have h2 : s * ((t + s - 1) / s) < t + s := by omega
  have h1Q : (t : ℚ) ≤ (s : ℚ) * (((t + s - 1) / s : Nat) : ℚ) := by exact_mod_cast h1
  have h2Q : (s : ℚ) * (((t + s - 1) / s : Nat) : ℚ) < (t : ℚ) + (s : ℚ) := by
    exact_mod_cast h2
  have hcst : ((((t + s - 1) / s : Nat) : Int) : ℚ) = (((t + s - 1) / s : Nat) : ℚ) := by
    push_cast
    rfl
  rw [Int.ceil_eq_iff]
  refine ⟨?_, ?_⟩
  · rw [lt_div_iff₀ hsQ, hcst]
    have hr : ((((t + s - 1) / s : Nat) : ℚ) - 1) * (s : ℚ) =
        (s : ℚ) * (((t + s - 1) / s : Nat) : ℚ) - (s : ℚ) := by ring
    rw [hr]
    linarith
  · rw [div_le_iff₀ hsQ, hcst]
    have hr : (((t + s - 1) / s : Nat) : ℚ) * (s : ℚ) =
        (s : ℚ) * (((t + s - 1) / s : Nat) : ℚ) := by ring
    rw [hr]
    linarith

theorem totalPagesOfCount_natCast (t s : Nat) (hs : 0 < s) :
    totalPagesOfCount (t : Int) s = (t + s - 1) / s := by
  unfold totalPagesOfCount
  rw [if_neg (by omega)]
  rw [show (((t : Int) : ℚ)) = ((t : ℚ)) by push_cast; rfl]
  rw [ceil_natCast_div t s hs]
  exact Int.toNat_natCast _

theorem usizeToI64_of_lt {n : Nat} (h : n < 2 ^ 63) : usizeToI64 n = (n : Int) := by
  unfold usizeToI64
  rw [Nat.mod_eq_of_lt (by omega), if_pos h]

theorem rangePageRows_ok (st : Store) (origin destination carrier_code : String)
    (from_date to_date : Nat) (p s : Nat) (hs : s < 2 ^ 63) (hps : p * s < 2 ^ 63) :
    rangePageRows st origin destination carrier_code from_date to_date p s =
      Except.ok
        (((rangeOrdered st origin destination carrier_code from_date to_date).drop
            (p * s)).take s) := by
  unfold rangePageRows
  rw [usizeToI64_of_lt hps, usizeToI64_of_lt hs]
  rw [if_neg (by omega), if_neg (by omega)]
  rw [Int.toNat_natCast, Int.toNat_natCast]

theorem cheapestPageRows_ok (st : Store) (origin destination cabin_type : String)
    (p s : Nat) (hs : s < 2 ^ 63) (hps : p * s < 2 ^ 63) :
    cheapestPageRows st origin destination cabin_type p s =
      Except.ok (((cheapestOrdered st origin destination cabin_type).drop (p * s)).take s) := by
  unfold cheapestPageRows
  rw [usizeToI64_of_lt hps, usizeToI64_of_lt hs]
  rw [if_neg (by omega), if_neg (by omega)]
  rw [Int.toNat_natCast, Int.toNat_natCast]

theorem rangeOrdered_length (st : Store) (origin destination carrier_code : String)
    (from_date to_date : Nat) :
    (rangeOrdered st origin destination carrier_code from_date to_date).length =
      (st.flights.filter (rangeMatches origin destination carrier_code from_date to_date)).length := by
  unfold rangeOrdered
  rw [List.length_map, List.length_insertionSort]

theorem cheapestOrdered_length (st : Store) (origin destination cabin_type : String) :
    (cheapestOrdered st origin destination cabin_type).length =
      (st.flights.filter (cheapestMatches st origin destination cabin_type)).length := by
  unfold cheapestOrdered
  rw [List.length_map, List.length_insertionSort]

theorem mem_rangeOrdered {st : Store} {origin destination carrier_code : String}
    {from_date to_date : Nat} {r : JoinedRow}
    (hr : r ∈ rangeOrdered st origin destination carrier_code from_date to_date) :
    ∃ f, f ∈ st.flights ∧
      rangeMatches origin destination carrier_code from_date to_date f = true ∧
      r = joinRow st f := by
  unfold rangeOrdered at hr
  obtain ⟨f, hf, hfr⟩ := List.mem_map.mp hr
  have hf2 := (List.mem_insertionSort depLe).mp hf
  have hf3 := List.mem_filter.mp hf2
  exact ⟨f, hf3.1, hf3.2, hfr.symm⟩

theorem mem_cheapestOrdered {st : Store} {origin destination cabin_type : String}
    {r : JoinedRow} (hr : r ∈ cheapestOrdered st origin destination cabin_type) :
    ∃ f, f ∈ st.flights ∧ cheapestMatches st origin destination cabin_type f = true ∧
      r = joinRow st f := by
  unfold cheapestOrdered at hr
  obtain ⟨f, hf, hfr⟩ := List.mem_map.mp hr
  have hf2 := (List.mem_insertionSort (cheapLe st cabin_type)).mp hf
  have hf3 := List.mem_filter.mp hf2
  exact ⟨f, hf3.1, hf3.2, hfr.symm⟩

theorem take_drop_subset {α : Type} (n m : Nat) (l : List α) :
    (l.drop n).take m ⊆ l :=
  fun _ h => List.drop_subset n l (List.take_subset m (l.drop n) h)

theorem take_drop_sublist {α : Type} (n m : Nat) (l : List α) :
    List.Sublist ((l.drop n).take m) l :=
  (List.take_sublist m (l.drop n)).trans (List.drop_sublist n l)

theorem rangeOrdered_pairwise (st : Store) (origin destination carrier_code : String)
    (from_date to_date : Nat) :
    (rangeOrdered st origin destination carrier_code from_date to_date).Pairwise
      (fun r1 r2 => r1.departure.getD 0 ≤ r2.departure.getD 0) := by
  unfold rangeOrdered
  have hsorted :=
    List.sorted_insertionSort depLe
      (st.flights.filter (rangeMatches origin destination carrier_code from_date to_date))
  exact List.Pairwise.map (joinRow st) (fun a b h => h) hsorted

theorem jCabinPoints_joinRow (st : Store) (cabin_type : String) (f : FlightRow) :
    jCabinPoints cabin_type (joinRow st f) = cheapKey st cabin_type f := by
  unfold jCabinPoints cheapKey cabinLookup joinRow
  split_ifs <;> rfl

theorem cheapestOrdered_pairwise (st : Store) (origin destination cabin_type : String) :
    (cheapestOrdered st origin destination cabin_type).Pairwise
      (fun r1 r2 =>
        (jCabinPoints cabin_type r1).getD 0 < (jCabinPoints cabin_type r2).getD 0 ∨
          ((jCabinPoints cabin_type r1).getD 0 = (jCabinPoints cabin_type r2).getD 0 ∧
            r1.departure.getD 0 ≤ r2.departure.getD 0)) := by
  unfold cheapestOrdered
  refine List.Pairwise.map (joinRow st) (fun a b h => ?_)
    (List.sorted_insertionSort (cheapLe st cabin_type) _)
  rw [jCabinPoints_joinRow, jCabinPoints_joinRow]
  exact h

theorem rangePageRows_eq_selected (st : Store) (origin destination carrier_code : String)
    (from_date to_date : Nat) (p s : Nat) (hs : s < 2 ^ 63) (hps : p * s < 2 ^ 63) :
    rangePageRows st origin destination carrier_code from_date to_date p s =
      Except.ok (rangeSelected st origin destination carrier_code from_date to_date p s) :=
  rangePageRows_ok st origin destination carrier_code from_date to_date p s hs hps

theorem cheapestPageRows_eq_selected (st : Store) (origin destination cabin_type : String)
    (p s : Nat) (hs : s < 2 ^ 63) (hps : p * s < 2 ^ 63) :
    cheapestPageRows st origin destination cabin_type p s =
      Except.ok (cheapestSelected st origin destination cabin_type p s) :=
  cheapestPageRows_ok st origin destination cabin_type p s hs hps

theorem find_range_ok (st : Store) (now : Int) (origin destination carrier_code : String)
    (from_date to_date : Nat) (p s : Nat) (hs : s < 2 ^ 63) (hps : p * s < 2 ^ 63) :
    find_by_origin_and_destination_and_carrier_code_and_departure_between
        st now origin destination carrier_code from_date to_date p s =
      Except.ok
        { content :=
            (rangeSelected st origin destination carrier_code from_date to_date p s).map
              (mapRow now)
          page_number := p
          page_size := s
          total_elements := rangeCountQuery st origin destination carrier_code from_date to_date
          total_pages :=
            totalPagesOfCount
              (rangeCountQuery st origin destination carrier_code from_date to_date) s } := by
  unfold find_by_origin_and_destination_and_carrier_code_and_departure_between
  rw [rangePageRows_eq_selected st origin destination carrier_code from_date to_date p s hs hps]
  rfl

theorem find_cheapest_ok (st : Store) (now : Int) (origin destination cabin_type : String)
    (p s : Nat) (hs : s < 2 ^ 63) (hps : p * s < 2 ^ 63) :
    find_all_ordered_by_lowest_cabin_points_and_origin_and_destination
        st now origin destination cabin_type p s =
      Except.ok
        { content := (cheapestSelected st origin destination cabin_type p s).map (mapRow now)
          page_number := p
          page_size := s
          total_elements := cheapestCountQuery st origin destination cabin_type
          total_pages :=
            totalPagesOfCount (cheapestCountQuery st origin destination cabin_type) s } := by
  unfold find_all_ordered_by_lowest_cabin_points_and_origin_and_destination
  rw [cheapestPageRows_eq_selected st origin destination cabin_type p s hs hps]
  rfl

theorem rangeSelected_length (st : Store) (origin destination carrier_code : String)
    (from_date to_date : Nat) (p s : Nat) :
    (rangeSelected st origin destination carrier_code from_date to_date p s).length =
      min s
        ((st.flights.filter
            (rangeMatches origin destination carrier_code from_date to_date)).length - p * s) := by
  unfold rangeSelected
  rw [List.length_take, List.length_drop, rangeOrdered_length]

theorem mem_rangeSelected {st : Store} {origin destination carrier_code : String}
    {from_date to_date p s : Nat} {r : JoinedRow}
    (hr : r ∈ rangeSelected st origin destination carrier_code from_date to_date p s) :
    ∃ f, f ∈ st.flights ∧
      rangeMatches origin destination carrier_code from_date to_date f = true ∧
      r = joinRow st f :=
  mem_rangeOrdered (take_drop_subset _ _ _ hr)

theorem mem_cheapestSelected {st : Store} {origin destination cabin_type : String}
    {p s : Nat} {r : JoinedRow}
    (hr : r ∈ cheapestSelected st origin destination cabin_type p s) :
    ∃ f, f ∈ st.flights ∧ cheapestMatches st origin destination cabin_type f = true ∧
      r = joinRow st f :=
  mem_cheapestOrdered (take_drop_subset _ _ _ hr)

theorem rangeSelected_pairwise (st : Store) (origin destination carrier_code : String)
    (from_date to_date p s : Nat) :
    (rangeSelected st origin destination carrier_code from_date to_date p s).Pairwise
      (fun r1 r2 => r1.departure.getD 0 ≤ r2.departure.getD 0) :=
  (rangeOrdered_pairwise st origin destination carrier_code from_date to_date).sublist
    (take_drop_sublist _ _ _)

theorem cheapestSelected_pairwise (st : Store) (origin destination cabin_type : String)
    (p s : Nat) :
    (cheapestSelected st origin destination cabin_type p s).Pairwise
      (fun r1 r2 =>
        (jCabinPoints cabin_type r1).getD 0 < (jCabinPoints cabin_type r2).getD 0 ∨
          ((jCabinPoints cabin_type r1).getD 0 = (jCabinPoints cabin_type r2).getD 0 ∧
            r1.departure.getD 0 ≤ r2.departure.getD 0)) :=
  (cheapestOrdered_pairwise st origin destination cabin_type).sublist
    (take_drop_sublist _ _ _)

theorem mapRow_indep_of_scraped_at {r : JoinedRow} (now1 now2 : Int)
    (h : r.scraped_at.isSome = true) : mapRow now1 r = mapRow now2 r := by
  obtain ⟨v, hv⟩ := Option.isSome_iff_exists.mp h
  unfold mapRow
  rw [hv]
  rfl

theorem awardBookable_eq_true {x : Option AwardSatRow} (h : awardBookable x = true) :
    ∃ a, x = some a ∧ a.cabin_points_value.isSome = true ∧
      ∃ n, a.cabin_class_seat_count = some n ∧ 0 < n := by
  cases x with
  | none => exact absurd h (by simp [awardBookable])
  | some a =>
    unfold awardBookable at h
    simp only [Bool.and_eq_true] at h
    obtain ⟨h1, h2⟩ := h
    refine ⟨a, rfl, h1, ?_⟩
    cases hsc : a.cabin_class_seat_count with
    | none => rw [hsc] at h2; exact absurd h2 (by simp)
    | some n => rw [hsc] at h2; exact ⟨n, rfl, of_decide_eq_true h2⟩

theorem cheapest_row_facts {st : Store} {origin destination cabin_type : String}
    {p s : Nat} {r : JoinedRow}
    (hcab : cabin_type = "ECONOMY" ∨ cabin_type = "PREMIUM_ECONOMY" ∨
      cabin_type = "BUSINESS")
    (hr : r ∈ cheapestSelected st origin destination cabin_type p s) :
    (jCabinId cabin_type r).isSome = true ∧ (jCabinPoints cabin_type r).isSome = true ∧
      ∃ n, jCabinSeat cabin_type r = some n ∧ 0 < n := by
  obtain ⟨f, hf, hm, rfl⟩ := mem_cheapestSelected hr
  unfold cheapestMatches at hm
  simp only [Bool.and_eq_true, Bool.or_eq_true, beq_iff_eq] at hm
  rcases hcab with rfl | rfl | rfl
  · rcases hm.2 with (⟨-, hb⟩ | ⟨hfalse, -⟩) | ⟨hfalse, -⟩
    · obtain ⟨a, hlk, hpts, n, hsc, hn⟩ := awardBookable_eq_true hb
      refine ⟨?_, ?_, n, ?_, hn⟩
      · simp [jCabinId, joinRow, hlk]
      · simp [jCabinPoints, joinRow, hlk, hpts]
      · simp [jCabinSeat, joinRow, hlk, hsc]
    · exact absurd hfalse (by decide)
    · exact absurd hfalse (by decide)
  · rcases hm.2 with (⟨hfalse, -⟩ | ⟨-, hb⟩) | ⟨hfalse, -⟩
    · exact absurd hfalse (by decide)
    · obtain ⟨a, hlk, hpts, n, hsc, hn⟩ := awardBookable_eq_true hb
      refine ⟨?_, ?_, n, ?_, hn⟩
      · simp [jCabinId, joinRow, hlk]
      · simp [jCabinPoints, joinRow, hlk, hpts]
      · simp [jCabinSeat, joinRow, hlk, hsc]
    · exact absurd hfalse (by decide)
  · rcases hm.2 with (⟨hfalse, -⟩ | ⟨hfalse, -⟩) | ⟨-, hb⟩
    · exact absurd hfalse (by decide)
    · exact absurd hfalse (by decide)
    · obtain ⟨a, hlk, hpts, n, hsc, hn⟩ := awardBookable_eq_true hb
      refine ⟨?_, ?_, n, ?_, hn⟩
      · simp [jCabinId, joinRow, hlk]
      · simp [jCabinPoints, joinRow, hlk, hpts]
      · simp [jCabinSeat, joinRow, hlk, hsc]

theorem sel_eq_of_id_present {cabin_type : String} (now : Int) {r : JoinedRow}
    (hcab : cabin_type = "ECONOMY" ∨ cabin_type = "PREMIUM_ECONOMY" ∨
      cabin_type = "BUSINESS")
    (hid : (jCabinId cabin_type r).isSome = true) :
    selPoints cabin_type (mapRow now r) = jCabinPoints cabin_type r ∧
    selSeat cabin_type (mapRow now r) = jCabinSeat cabin_type r := by
  rcases hcab with rfl | rfl | rfl
  · simp only [jCabinId, if_true, eq_self_iff_true] at hid
    obtain ⟨i, hi⟩ := Option.isSome_iff_exists.mp hid
    constructor
    · simp [selPoints, selAward, jCabinPoints, mapRow, hi]
    · simp [selSeat, selAward, jCabinSeat, mapRow, hi]
  · simp [jCabinId] at hid
    obtain ⟨i, hi⟩ := Option.isSome_iff_exists.mp hid
    constructor
    · simp [selPoints, selAward, jCabinPoints, mapRow, hi]
    · simp [selSeat, selAward, jCabinSeat, mapRow, hi]
  · simp [jCabinId] at hid
    obtain ⟨i, hi⟩ := Option.isSome_iff_exists.mp hid
    constructor
    · simp [selPoints, selAward, jCabinPoints, mapRow, hi]
    · simp [selSeat, selAward, jCabinSeat, mapRow, hi]

theorem mem_of_rangePageRows_ok {st : Store} {origin destination carrier_code : String}
    {from_date to_date p s : Nat} {rows : List JoinedRow}
    (hok : rangePageRows st origin destination carrier_code from_date to_date p s =
      Except.ok rows) {r : JoinedRow} (hr : r ∈ rows) :
    ∃ f, f ∈ st.flights ∧
      rangeMatches origin destination carrier_code from_date to_date f = true ∧
      r = joinRow st f := by
  simp only [rangePageRows] at hok
  split_ifs at hok
  simp only [Except.ok.injEq] at hok
  subst hok
  exact mem_rangeOrdered (List.drop_subset _ _ (List.take_subset _ _ hr))

theorem mem_of_cheapestPageRows_ok {st : Store} {origin destination cabin_type : String}
    {p s : Nat} {rows : List JoinedRow}
    (hok : cheapestPageRows st origin destination cabin_type p s = Except.ok rows)
    {r : JoinedRow} (hr : r ∈ rows) :
    ∃ f, f ∈ st.flights ∧ cheapestMatches st origin destination cabin_type f = true ∧
      r = joinRow st f := by
  simp only [cheapestPageRows] at hok
  split_ifs at hok
  simp only [Except.ok.injEq] at hok
  subst hok
  exact mem_cheapestOrdered (List.drop_subset _ _ (List.take_subset _ _ hr))

/-! ## Claims -/

/-- Claim C1 (code finding): contrary to the specified behaviour, a failure
of the count sub-query is not surfaced as a typed data-access error in
either repository method: the source consumes the count result with
`.unwrap_or(0)`, so whenever the page sub-query succeeds the method returns
a successful `Page` whose `total_elements` is 0 merely because the count
query failed. -/
theorem count_failure_swallowed_as_zero_total (e : DbError) (rows : List JoinedRow)
    (now : Int) (p s : Nat) :
    rangeSearchOnResults (Except.error e) (Except.ok rows) now p s =
      Except.ok
        { content := rows.map (mapRow now), page_number := p, page_size := s,
          total_elements := 0, total_pages := totalPagesOfCount 0 s } ∧
    cheapestSearchOnResults (Except.error e) (Except.ok rows) now p s =
      Except.ok
        { content := rows.map (mapRow now), page_number := p, page_size := s,
          total_elements := 0, total_pages := totalPagesOfCount 0 s } :=
  ⟨rfl, rfl⟩

/-- Claim C2: for every successful search with page size `s ≥ 1` (and LIMIT
and OFFSET within the i64 range), the returned Page of either operation
has `total_pages` equal to the exact integer ceiling of the total count
divided by `s`. -/
theorem total_pages_is_exact_ceiling (st : Store) (now : Int)
    (origin destination carrier_code cabin_type : String) (from_date to_date : Nat)
    (p s : Nat) (hs : 1 ≤ s) (hs63 : s < 2 ^ 63) (hps : p * s < 2 ^ 63) :
    (∃ pg,
        find_by_origin_and_destination_and_carrier_code_and_departure_between
            st now origin destination carrier_code from_date to_date p s = Except.ok pg ∧
          pg.total_elements =
            rangeCountQuery st origin destination carrier_code from_date to_date ∧
          pg.total_pages = (pg.total_elements.toNat + s - 1) / s) ∧
    (∃ pg,
        find_all_ordered_by_lowest_cabin_points_and_origin_and_destination
            st now origin destination cabin_type p s = Except.ok pg ∧
          pg.total_elements = cheapestCountQuery st origin destination cabin_type ∧
          pg.total_pages = (pg.total_elements.toNat + s - 1) / s) := by
  constructor
  · refine ⟨_,
      find_range_ok st now origin destination carrier_code from_date to_date p s hs63 hps,
      rfl, ?_⟩
    show totalPagesOfCount
        (rangeCountQuery st origin destination carrier_code from_date to_date) s =
      ((rangeCountQuery st origin destination carrier_code from_date to_date).toNat + s - 1) / s
    unfold rangeCountQuery
    rw [totalPagesOfCount_natCast _ s hs, Int.toNat_natCast]
  · refine ⟨_, find_cheapest_ok st now origin destination cabin_type p s hs63 hps, rfl, ?_⟩
    show totalPagesOfCount (cheapestCountQuery st origin destination cabin_type) s =
      ((cheapestCountQuery st origin destination cabin_type).toNat + s - 1) / s
    unfold cheapestCountQuery
    rw [totalPagesOfCount_natCast _ s hs, Int.toNat_natCast]

/-- Witness for C2 at a concrete store, page number and page size. -/
theorem total_pages_is_exact_ceiling_witness :
    (1 ≤ 1 ∧ 1 < 2 ^ 63 ∧ 0 * 1 < 2 ^ 63) ∧
    ((∃ pg,
        find_by_origin_and_destination_and_carrier_code_and_departure_between
            store1 0 "LHR" "JFK" "VS" 19000 20000 0 1 = Except.ok pg ∧
          pg.total_elements = rangeCountQuery store1 "LHR" "JFK" "VS" 19000 20000 ∧
          pg.total_pages = (pg.total_elements.toNat + 1 - 1) / 1) ∧
    (∃ pg,
        find_all_ordered_by_lowest_cabin_points_and_origin_and_destination
            store1 0 "LHR" "JFK" "BUSINESS" 0 1 = Except.ok pg ∧
          pg.total_elements = cheapestCountQuery store1 "LHR" "JFK" "BUSINESS" ∧
          pg.total_pages = (pg.total_elements.toNat + 1 - 1) / 1)) :=
  ⟨⟨by decide, by decide, by decide⟩,
    total_pages_is_exact_ceiling store1 0 "LHR" "JFK" "VS" "BUSINESS" 19000 20000 0 1
      (by decide) (by decide) (by decide)⟩

/-- Claim C3: for every range search with page number `p` and page size
`s ≥ 1` (LIMIT and OFFSET within the i64 range) over a store with `T`
matching records, the search succeeds, the content has length
`min(s, max(0, T - p*s))`, the metadata carries the true total and its
ceiling page count, and a page number beyond the last valid page yields an
empty content sequence rather than an error. -/
theorem page_content_length_formula (st : Store) (now : Int)
    (origin destination carrier_code : String) (from_date to_date : Nat) (p s : Nat)
    (hs : 1 ≤ s) (hs63 : s < 2 ^ 63) (hps : p * s < 2 ^ 63) :
    ∃ pg,
      find_by_origin_and_destination_and_carrier_code_and_departure_between
          st now origin destination carrier_code from_date to_date p s = Except.ok pg ∧
        ((pg.content.length : Int) =
          min (s : Int)
            (max 0
              (rangeCountQuery st origin destination carrier_code from_date to_date -
                (p : Int) * (s : Int)))) ∧
        pg.total_elements = rangeCountQuery st origin destination carrier_code from_date to_date ∧
        pg.total_pages =
          ((rangeCountQuery st origin destination carrier_code from_date to_date).toNat +
              s - 1) / s ∧
        (rangeCountQuery st origin destination carrier_code from_date to_date ≤
            (p : Int) * (s : Int) →
          pg.content = []) := by
  refine ⟨_,
    find_range_ok st now origin destination carrier_code from_date to_date p s hs63 hps,
    ?_, rfl, ?_, ?_⟩
  · show ((((rangeSelected st origin destination carrier_code from_date to_date p s).map
        (mapRow now)).length : Nat) : Int) = _
    rw [List.length_map, rangeSelected_length]
    unfold rangeCountQuery
    omega
  · show totalPagesOfCount
        (rangeCountQuery st origin destination carrier_code from_date to_date) s = _
    unfold rangeCountQuery
    rw [totalPagesOfCount_natCast _ s hs, Int.toNat_natCast]
  · intro hle
    show (rangeSelected st origin destination carrier_code from_date to_date p s).map
        (mapRow now) = []
    have hlen := rangeSelected_length st origin destination carrier_code from_date to_date p s
    unfold rangeCountQuery at hle
    have hnil : (rangeSelected st origin destination carrier_code from_date to_date p s).length
        = 0 := by omega
    rw [List.length_eq_zero.mp hnil]
    rfl

/-- Witness for C3 at a concrete store, with the page number past the last
valid page. -/
theorem page_content_length_formula_witness :
    (1 ≤ 10 ∧ 10 < 2 ^ 63 ∧ 5 * 10 < 2 ^ 63) ∧
    (∃ pg,
      find_by_origin_and_destination_and_carrier_code_and_departure_between
          store1 0 "LHR" "JFK" "VS" 19000 20000 5 10 = Except.ok pg ∧
        ((pg.content.length : Int) =
          min ((10 : Nat) : Int)
            (max 0
              (rangeCountQuery store1 "LHR" "JFK" "VS" 19000 20000 -
                ((5 : Nat) : Int) * ((10 : Nat) : Int)))) ∧
        pg.total_elements = rangeCountQuery store1 "LHR" "JFK" "VS" 19000 20000 ∧
        pg.total_pages =
          ((rangeCountQuery store1 "LHR" "JFK" "VS" 19000 20000).toNat + 10 - 1) / 10 ∧
        (rangeCountQuery store1 "LHR" "JFK" "VS" 19000 20000 ≤
            ((5 : Nat) : Int) * ((10 : Nat) : Int) →
          pg.content = [])) :=
  ⟨⟨by decide, by decide, by decide⟩,
    page_content_length_formula store1 0 "LHR" "JFK" "VS" 19000 20000 5 10
      (by decide) (by decide) (by decide)⟩

/-- Claim C4: every row returned by a range search matches origin,
destination and carrier code exactly and has a departure date within
`[from_date, to_date]` inclusive, the returned sequence is non-decreasing
by departure date, and the returned page's content is exactly the mapping
of those rows. -/
theorem range_results_match_filters_and_are_ordered (st : Store) (now : Int)
    (origin destination carrier_code : String) (from_date to_date p s : Nat)
    (hs63 : s < 2 ^ 63) (hps : p * s < 2 ^ 63) :
    (∀ r ∈ rangeSelected st origin destination carrier_code from_date to_date p s,
        r.origin = origin ∧ r.destination = destination ∧ r.carrier_code = carrier_code ∧
        ∃ d, r.departure = some d ∧ from_date ≤ d ∧ d ≤ to_date) ∧
    (rangeSelected st origin destination carrier_code from_date to_date p s).Pairwise
      (fun r1 r2 => r1.departure.getD 0 ≤ r2.departure.getD 0) ∧
    ∃ pg,
      find_by_origin_and_destination_and_carrier_code_and_departure_between
          st now origin destination carrier_code from_date to_date p s = Except.ok pg ∧
      pg.content =
        (rangeSelected st origin destination carrier_code from_date to_date p s).map
          (mapRow now) := by
  refine ⟨?_, rangeSelected_pairwise st origin destination carrier_code from_date to_date p s,
    _, find_range_ok st now origin destination carrier_code from_date to_date p s hs63 hps,
    rfl⟩
  intro r hr
  obtain ⟨f, hf, hm, rfl⟩ := mem_rangeSelected hr
  cases hdep : f.departure with
  | none =>
      unfold rangeMatches at hm
      rw [hdep] at hm
      simp at hm
  | some d =>
      unfold rangeMatches at hm
      rw [hdep] at hm
      simp only [Bool.and_eq_true, beq_iff_eq, decide_eq_true_eq] at hm
      exact ⟨hm.1.1.1, hm.1.1.2, hm.1.2, d, by simp [joinRow, hdep], hm.2.1, hm.2.2⟩

/-- Witness for C4 at a concrete store. -/
theorem range_results_match_filters_and_are_ordered_witness :
    (10 < 2 ^ 63 ∧ 0 * 10 < 2 ^ 63) ∧
    ((∀ r ∈ rangeSelected store1 "LHR" "JFK" "VS" 19000 20000 0 10,
        r.origin = "LHR" ∧ r.destination = "JFK" ∧ r.carrier_code = "VS" ∧
        ∃ d, r.departure = some d ∧ 19000 ≤ d ∧ d ≤ 20000) ∧
    (rangeSelected store1 "LHR" "JFK" "VS" 19000 20000 0 10).Pairwise
      (fun r1 r2 => r1.departure.getD 0 ≤ r2.departure.getD 0) ∧
    ∃ pg,
      find_by_origin_and_destination_and_carrier_code_and_departure_between
          store1 0 "LHR" "JFK" "VS" 19000 20000 0 10 = Except.ok pg ∧
      pg.content =
        (rangeSelected store1 "LHR" "JFK" "VS" 19000 20000 0 10).map (mapRow 0)) :=
  ⟨⟨by decide, by decide⟩,
    range_results_match_filters_and_are_ordered store1 0 "LHR" "JFK" "VS" 19000 20000 0 10
      (by decide) (by decide)⟩

/-- Claim C5: every row returned by a cheapest search with a cabin class
among ECONOMY, PREMIUM_ECONOMY and BUSINESS has, for the requested cabin, a
matched award join, a non-null points value and a seat count greater than
zero; the sequence is non-decreasing by that cabin's points value with ties
non-decreasing by departure date; and in the returned page every mapped
flight carries the requested cabin's offer with a present points value and
a positive seat count. -/
theorem cheapest_results_bookable_and_ordered (st : Store) (now : Int)
    (origin destination cabin_type : String) (p s : Nat)
    (hcab : cabin_type = "ECONOMY" ∨ cabin_type = "PREMIUM_ECONOMY" ∨
      cabin_type = "BUSINESS")
    (hs63 : s < 2 ^ 63) (hps : p * s < 2 ^ 63) :
    (∀ r ∈ cheapestSelected st origin destination cabin_type p s,
        (jCabinId cabin_type r).isSome = true ∧ (jCabinPoints cabin_type r).isSome = true ∧
        ∃ n, jCabinSeat cabin_type r = some n ∧ 0 < n) ∧
    (cheapestSelected st origin destination cabin_type p s).Pairwise
      (fun r1 r2 =>
        (jCabinPoints cabin_type r1).getD 0 < (jCabinPoints cabin_type r2).getD 0 ∨
          ((jCabinPoints cabin_type r1).getD 0 = (jCabinPoints cabin_type r2).getD 0 ∧
            r1.departure.getD 0 ≤ r2.departure.getD 0)) ∧
    ∃ pg,
      find_all_ordered_by_lowest_cabin_points_and_origin_and_destination
          st now origin destination cabin_type p s = Except.ok pg ∧
      pg.content = (cheapestSelected st origin destination cabin_type p s).map (mapRow now) ∧
      ∀ fl ∈ pg.content,
        (selPoints cabin_type fl).isSome = true ∧
        ∃ n, selSeat cabin_type fl = some n ∧ 0 < n := by
  refine ⟨fun r hr => cheapest_row_facts hcab hr,
    cheapestSelected_pairwise st origin destination cabin_type p s,
    _, find_cheapest_ok st now origin destination cabin_type p s hs63 hps, rfl, ?_⟩
  intro fl hfl
  have hfl2 : fl ∈ (cheapestSelected st origin destination cabin_type p s).map (mapRow now) :=
    hfl
  obtain ⟨r, hr, rfl⟩ := List.mem_map.mp hfl2
  obtain ⟨hid, hpts, n, hseat, hn⟩ := cheapest_row_facts hcab hr
  obtain ⟨heq1, heq2⟩ := sel_eq_of_id_present now hcab hid
  rw [heq1, heq2]
  exact ⟨hpts, n, hseat, hn⟩

/-- Witness for C5 at a concrete store and the BUSINESS cabin. -/
theorem cheapest_results_bookable_and_ordered_witness :
    (("BUSINESS" : String) = "ECONOMY" ∨ ("BUSINESS" : String) = "PREMIUM_ECONOMY" ∨
      ("BUSINESS" : String) = "BUSINESS") ∧ (50 < 2 ^ 63 ∧ 0 * 50 < 2 ^ 63) ∧
    ((∀ r ∈ cheapestSelected store1 "LHR" "JFK" "BUSINESS" 0 50,
        (jCabinId "BUSINESS" r).isSome = true ∧ (jCabinPoints "BUSINESS" r).isSome = true ∧
        ∃ n, jCabinSeat "BUSINESS" r = some n ∧ 0 < n) ∧
    (cheapestSelected store1 "LHR" "JFK" "BUSINESS" 0 50).Pairwise
      (fun r1 r2 =>
        (jCabinPoints "BUSINESS" r1).getD 0 < (jCabinPoints "BUSINESS" r2).getD 0 ∨
          ((jCabinPoints "BUSINESS" r1).getD 0 = (jCabinPoints "BUSINESS" r2).getD 0 ∧
            r1.departure.getD 0 ≤ r2.departure.getD 0)) ∧
    ∃ pg,
      find_all_ordered_by_lowest_cabin_points_and_origin_and_destination
          store1 0 "LHR" "JFK" "BUSINESS" 0 50 = Except.ok pg ∧
      pg.content = (cheapestSelected store1 "LHR" "JFK" "BUSINESS" 0 50).map (mapRow 0) ∧
      ∀ fl ∈ pg.content,
        (selPoints "BUSINESS" fl).isSome = true ∧
        ∃ n, selSeat "BUSINESS" fl = some n ∧ 0 < n) :=
  ⟨by decide, ⟨by decide, by decide⟩,
    cheapest_results_bookable_and_ordered store1 0 "LHR" "JFK" "BUSINESS" 0 50
      (by decide) (by decide) (by decide)⟩

/-- Claim C6: the row mapper populates a cabin's award slot if and only if
that cabin's join-produced identifier column is present and non-null; in
particular a row whose cabin identifier is null yields no offer for that
cabin regardless of the other columns of that cabin. -/
theorem award_slot_iff_cabin_id_non_null (now : Int) (r : JoinedRow) :
    ((mapRow now r).award_economy.isSome = r.ae_id.isSome) ∧
    ((mapRow now r).award_business.isSome = r.ab_id.isSome) ∧
    ((mapRow now r).award_premium_economy.isSome = r.ape_id.isSome) ∧
    ((mapRow now r).award_first.isSome = r.af_id.isSome) := by
  obtain ⟨i, og, ds, dep, cc, sa, ae1, ae2, ae3, ae4, ae5, ab1, ab2, ab3, ab4, ab5,
    ap1, ap2, ap3, ap4, ap5, af1, af2, af3, af4, af5⟩ := r
  cases ae1 <;> cases ab1 <;> cases ap1 <;> cases af1 <;> simp [mapRow]

/-- Claim C7 (code finding): contrary to the specified behaviour, the row
mapper surfaces no mapping error for unreadable cells: an unreadable
departure column is silently rendered as the empty string and an
unreadable capture timestamp is silently defaulted to the current time
(the `now` argument); the mapper's type has no error outcome at all. -/
theorem mapper_silently_defaults_unreadable_cells (now : Int) :
    (mapRow now unreadableRow).departure = "" ∧
    (mapRow now unreadableRow).scraped_at = now :=
  ⟨rfl, rfl⟩

/-- Counterexample to Claim C8 as stated: a request with page-size 0 is
not rejected before the paginator.  Over a store with one matching flight
the handler returns a 200 (not a 400) and its `total_pages` field was
computed by the paginator with the zero page size, yielding usize::MAX. -/
theorem page_size_zero_not_rejected :
    respIsBadRequest
        (latest_reward_flights store1 0 "LHR" "JFK" (some 19000) (some 20000)
          { page_number := some 0, page_size := some 0 }) = false ∧
    respTotalPages
        (latest_reward_flights store1 0 "LHR" "JFK" (some 19000) (some 20000)
          { page_number := some 0, page_size := some 0 }) = some usizeMax := by
  constructor
  · decide
  · decide

/-- Claim C8 (amended): a request with page-size 0 is not rejected as
invalid input: it flows through the handler to the repository, the page
query runs with LIMIT 0 (so the content is empty), and the total-pages
computation is performed with the zero page size, yielding usize::MAX
whenever the total count is positive. -/
theorem page_size_zero_reaches_paginator (st : Store) (now : Int)
    (origin destination : String) (from_date to_date : Nat) (pn : Int)
    (hT : 0 < rangeCountQuery st origin destination "VS" from_date to_date) :
    ∃ pg,
      latest_reward_flights st now origin destination (some from_date) (some to_date)
          { page_number := some pn, page_size := some 0 } = HttpResp.ok pg ∧
      pg.page_size = 0 ∧ pg.content = [] ∧ pg.total_pages = usizeMax := by
  have h0 : i32ToUsize 0 = 0 := by decide
  have hfind := find_range_ok st now origin destination "VS" from_date to_date
      (i32ToUsize pn) 0 (by norm_num) (by simp)
  have hpage :
      latest_reward_flights st now origin destination (some from_date) (some to_date)
          { page_number := some pn, page_size := some 0 } =
        match find_by_origin_and_destination_and_carrier_code_and_departure_between
            st now origin destination "VS" from_date to_date (i32ToUsize pn)
            (i32ToUsize 0) with
        | Except.ok page => HttpResp.ok page
        | Except.error _ => HttpResp.internalServerError "Failed to fetch reward flights" :=
    rfl
  rw [h0, hfind] at hpage
  refine ⟨_, hpage, rfl, ?_, ?_⟩
  · show (rangeSelected st origin destination "VS" from_date to_date (i32ToUsize pn) 0).map
        (mapRow now) = []
    simp [rangeSelected]
  · show totalPagesOfCount (rangeCountQuery st origin destination "VS" from_date to_date) 0 =
      usizeMax
    unfold totalPagesOfCount
    rw [if_pos rfl, if_pos hT]

/-- Witness for the amended C8 at a concrete store with one matching
flight. -/
theorem page_size_zero_reaches_paginator_witness :
    (0 < rangeCountQuery store1 "LHR" "JFK" "VS" 19000 20000) ∧
    (∃ pg,
      latest_reward_flights store1 0 "LHR" "JFK" (some 19000) (some 20000)
          { page_number := some 3, page_size := some 0 } = HttpResp.ok pg ∧
      pg.page_size = 0 ∧ pg.content = [] ∧ pg.total_pages = usizeMax) :=
  ⟨by decide, page_size_zero_reaches_paginator store1 0 "LHR" "JFK" 19000 20000 3 (by decide)⟩

/-- Counterexample to Claim C9 as stated: over a store containing a
matching row whose capture-timestamp cell is unreadable, two executions of
the same range search with identical parameters against the identical,
unchanged store return different Page content, because the mapper stamps
such a row with the execution-time clock (`Utc::now()`). -/
theorem same_search_not_deterministic :
    exceptContent
        (find_by_origin_and_destination_and_carrier_code_and_departure_between
          store9 0 "LHR" "JFK" "VS" 19000 20000 0 10) ≠
      exceptContent
        (find_by_origin_and_destination_and_carrier_code_and_departure_between
          store9 1 "LHR" "JFK" "VS" 19000 20000 0 10) := by
  decide

/-- Claim C9 (amended): both search operations are deterministic functions
of the parameters and the store state provided every row selected by the
page query has a readable capture-timestamp cell; the wall-clock argument
is then immaterial and two executions return identical Pages.  (Without
that proviso the property fails: an unreadable capture timestamp of a
selected row is replaced by the current time.) -/
theorem searches_deterministic_when_timestamps_readable (st : Store) (now1 now2 : Int)
    (origin destination carrier_code cabin_type : String) (from_date to_date p s : Nat)
    (hscr1 : ∀ r ∈ ((rangePageRows st origin destination carrier_code from_date to_date
        p s).toOption.getD []), r.scraped_at.isSome = true)
    (hscr2 : ∀ r ∈ ((cheapestPageRows st origin destination cabin_type p s).toOption.getD []),
      r.scraped_at.isSome = true) :
    find_by_origin_and_destination_and_carrier_code_and_departure_between
        st now1 origin destination carrier_code from_date to_date p s =
      find_by_origin_and_destination_and_carrier_code_and_departure_between
        st now2 origin destination carrier_code from_date to_date p s ∧
    find_all_ordered_by_lowest_cabin_points_and_origin_and_destination
        st now1 origin destination cabin_type p s =
      find_all_ordered_by_lowest_cabin_points_and_origin_and_destination
        st now2 origin destination cabin_type p s := by
  constructor
  · unfold find_by_origin_and_destination_and_carrier_code_and_departure_between
    cases hrows : rangePageRows st origin destination carrier_code from_date to_date p s with
    | error e => rfl
    | ok rows =>
        simp only [rangeSearchOnResults]
        rw [hrows] at hscr1
        have hmap : rows.map (mapRow now1) = rows.map (mapRow now2) := by
          apply List.map_congr_left
          intro r hr
          exact mapRow_indep_of_scraped_at now1 now2 (hscr1 r hr)
        rw [hmap]
  · unfold find_all_ordered_by_lowest_cabin_points_and_origin_and_destination
    cases hrows : cheapestPageRows st origin destination cabin_type p s with
    | error e => rfl
    | ok rows =>
        simp only [cheapestSearchOnResults]
        rw [hrows] at hscr2
        have hmap : rows.map (mapRow now1) = rows.map (mapRow now2) := by
          apply List.map_congr_left
          intro r hr
          exact mapRow_indep_of_scraped_at now1 now2 (hscr2 r hr)
        rw [hmap]

/-- Witness for the amended C9 at a concrete store whose selected rows all
have a readable capture timestamp, with two different clock instants. -/
theorem searches_deterministic_when_timestamps_readable_witness :
    ((∀ r ∈ ((rangePageRows store1 "LHR" "JFK" "VS" 19000 20000 0 10).toOption.getD []),
        r.scraped_at.isSome = true) ∧
      (∀ r ∈ ((cheapestPageRows store1 "LHR" "JFK" "BUSINESS" 0 10).toOption.getD []),
        r.scraped_at.isSome = true)) ∧
    (find_by_origin_and_destination_and_carrier_code_and_departure_between
        store1 0 "LHR" "JFK" "VS" 19000 20000 0 10 =
      find_by_origin_and_destination_and_carrier_code_and_departure_between
        store1 5 "LHR" "JFK" "VS" 19000 20000 0 10 ∧
    find_all_ordered_by_lowest_cabin_points_and_origin_and_destination
        store1 0 "LHR" "JFK" "BUSINESS" 0 10 =
      find_all_ordered_by_lowest_cabin_points_and_origin_and_destination
        store1 5 "LHR" "JFK" "BUSINESS" 0 10) :=
  ⟨⟨by decide, by decide⟩,
    searches_deterministic_when_timestamps_readable store1 0 5 "LHR" "JFK" "VS" "BUSINESS"
      19000 20000 0 10 (by decide) (by decide)⟩

/-- Claim C10: for every HTTP request carrying a negative page-number or a
negative page-size query parameter (either one suffices) the handlers
neither reject nor clamp the values: each negative i32 value is
reinterpreted modulo 2^64 by the `as usize` cast (hence at least 2^63, an
enormous value), no 400-class response is produced, and the response of
each handler is exactly that of its repository call at the cast values. -/
theorem negative_page_params_cast_to_huge_usize (st : Store) (now : Int)
    (origin destination : String) (from_date to_date : Nat) (x y : Int)
    (hxlo : -(2 ^ 31) ≤ x) (hylo : -(2 ^ 31) ≤ y) (hneg : x < 0 ∨ y < 0) :
    (x < 0 → i32ToUsize x = ((2 : Int) ^ 64 + x).toNat ∧ 2 ^ 63 ≤ i32ToUsize x) ∧
    (y < 0 → i32ToUsize y = ((2 : Int) ^ 64 + y).toNat ∧ 2 ^ 63 ≤ i32ToUsize y) ∧
    respIsBadRequest
        (latest_reward_flights st now origin destination (some from_date) (some to_date)
          { page_number := some x, page_size := some y }) = false ∧
    latest_reward_flights st now origin destination (some from_date) (some to_date)
        { page_number := some x, page_size := some y } =
      (match
          find_by_origin_and_destination_and_carrier_code_and_departure_between
            st now origin destination "VS" from_date to_date (i32ToUsize x)
            (i32ToUsize y) with
        | Except.ok page => HttpResp.ok page
        | Except.error _ => HttpResp.internalServerError "Failed to fetch reward flights") ∧
    respIsBadRequest
        (cheapest_reward_flights st now origin destination "ECONOMY"
          { page_number := some x, page_size := some y }) = false ∧
    cheapest_reward_flights st now origin destination "ECONOMY"
        { page_number := some x, page_size := some y } =
      (match
          find_all_ordered_by_lowest_cabin_points_and_origin_and_destination
            st now origin destination "ECONOMY" (i32ToUsize x) (i32ToUsize y) with
        | Except.ok page => HttpResp.ok page
        | Except.error _ =>
            HttpResp.internalServerError "Failed to fetch cheapest reward flights") := by
  refine ⟨?_, ?_, ?_, rfl, ?_, ?_⟩
  · intro hx
    unfold i32ToUsize
    omega
  · intro hy
    unfold i32ToUsize
    omega
  · have hpage :
        latest_reward_flights st now origin destination (some from_date) (some to_date)
            { page_number := some x, page_size := some y } =
          match find_by_origin_and_destination_and_carrier_code_and_departure_between
              st now origin destination "VS" from_date to_date (i32ToUsize x)
              (i32ToUsize y) with
          | Except.ok page => HttpResp.ok page
          | Except.error _ => HttpResp.internalServerError "Failed to fetch reward flights" :=
      rfl
    rw [hpage]
    cases find_by_origin_and_destination_and_carrier_code_and_departure_between
        st now origin destination "VS" from_date to_date (i32ToUsize x) (i32ToUsize y) with
    | ok pg => rfl
    | error e => rfl
  · have hpage :
        cheapest_reward_flights st now origin destination "ECONOMY"
            { page_number := some x, page_size := some y } =
          match find_all_ordered_by_lowest_cabin_points_and_origin_and_destination
              st now origin destination "ECONOMY" (i32ToUsize x) (i32ToUsize y) with
          | Except.ok page => HttpResp.ok page
          | Except.error _ =>
              HttpResp.internalServerError "Failed to fetch cheapest reward flights" := by
      unfold cheapest_reward_flights
      rw [if_pos (Or.inl rfl)]
      rfl
    rw [hpage]
    cases find_all_ordered_by_lowest_cabin_points_and_origin_and_destination
        st now origin destination "ECONOMY" (i32ToUsize x) (i32ToUsize y) with
    | ok pg => rfl
    | error e => rfl
  · unfold cheapest_reward_flights
    rw [if_pos (Or.inl rfl)]
    rfl

/-- Witness for C10 for a request with a non-negative page-number and a
negative page-size (page-size `-1`) against a concrete store. -/
theorem negative_page_params_cast_to_huge_usize_witness :
    (-(2 ^ 31) ≤ (3 : Int) ∧ -(2 ^ 31) ≤ (-1 : Int) ∧
      ((3 : Int) < 0 ∨ (-1 : Int) < 0)) ∧
    (((3 : Int) < 0 → i32ToUsize 3 = ((2 : Int) ^ 64 + 3).toNat ∧ 2 ^ 63 ≤ i32ToUsize 3) ∧
    ((-1 : Int) < 0 → i32ToUsize (-1) = ((2 : Int) ^ 64 + (-1)).toNat ∧
      2 ^ 63 ≤ i32ToUsize (-1)) ∧
    respIsBadRequest
        (latest_reward_flights store1 0 "LHR" "JFK" (some 19000) (some 20000)
          { page_number := some 3, page_size := some (-1) }) = false ∧
    latest_reward_flights store1 0 "LHR" "JFK" (some 19000) (some 20000)
        { page_number := some 3, page_size := some (-1) } =
      (match
          find_by_origin_and_destination_and_carrier_code_and_departure_between
            store1 0 "LHR" "JFK" "VS" 19000 20000 (i32ToUsize 3) (i32ToUsize (-1)) with
        | Except.ok page => HttpResp.ok page
        | Except.error _ => HttpResp.internalServerError "Failed to fetch reward flights") ∧
    respIsBadRequest
        (cheapest_reward_flights store1 0 "LHR" "JFK" "ECONOMY"
          { page_number := some 3, page_size := some (-1) }) = false ∧
    cheapest_reward_flights store1 0 "LHR" "JFK" "ECONOMY"
        { page_number := some 3, page_size := some (-1) } =
      (match
          find_all_ordered_by_lowest_cabin_points_and_origin_and_destination
            store1 0 "LHR" "JFK" "ECONOMY" (i32ToUsize 3) (i32ToUsize (-1)) with
        | Except.ok page => HttpResp.ok page
        | Except.error _ =>
            HttpResp.internalServerError "Failed to fetch cheapest reward flights")) :=
  ⟨⟨by decide, by decide, by decide⟩,
    negative_page_params_cast_to_huge_usize store1 0 "LHR" "JFK" 19000 20000 3 (-1)
      (by decide) (by decide) (by decide)⟩

end Rewardo
